import Mathlib

/-!
Verification of `src/rdkit_canonical.py`, a thin command-line wrapper around
an external cheminformatics toolkit (RDKit).  The wrapper consumes exactly
two external capabilities, `Chem.MolFromSmiles` (parse) and
`Chem.MolToSmiles` (serialize), and treats both as black boxes, so the
external library is modelled as a parameter of the embedding: a structure
bundling the two routines over an abstract molecule-handle type.
-/

/-- The external library boundary.  `MolFromSmiles` returns `some` molecule
handle on success and `none` (Python `None`) on failure; `MolToSmiles`
serializes a handle, its `Bool` argument being the `canonical` flag. -/
structure ChemLib (Mol : Type) where
  MolFromSmiles : String → Option Mol
  MolToSmiles : Mol → Bool → String

/-- `canonical_smiles` from `src/rdkit_canonical.py`: parse the input; if the
parser returned `None`, return the empty string; otherwise serialize the
molecule with `canonical=True` and return that. -/
def canonical_smiles {Mol : Type} (lib : ChemLib Mol) (smiles : String) : String :=
  match lib.MolFromSmiles smiles with
  | none => ""
  | some mol => lib.MolToSmiles mol true

/-- Observable outcome of one process invocation: the full text written to
stdout and the process exit code. -/
structure ProgResult where
  stdout : String
  exit_code : Nat
deriving DecidableEq, Repr

/-- The `__main__` block of `src/rdkit_canonical.py`.  `sys_argv` models
Python `sys.argv`, whose element 0 is the program name.  With fewer than two
elements the program prints an empty line and exits 0; otherwise it prints
`canonical_smiles(sys.argv[1])`.  Python `print` appends a newline, and
falling off the end of the script exits with code 0. -/
def main_run {Mol : Type} (lib : ChemLib Mol) (sys_argv : List String) : ProgResult :=
  if sys_argv.length < 2 then
    ⟨"\n", 0⟩
  else
    ⟨canonical_smiles lib (sys_argv.getD 1 "") ++ "\n", 0⟩

/-- A model library that accepts every input and serializes every handle to
the fixed nonempty string `"X"`; used to instantiate theorems at concrete
inputs. -/
def trivLib : ChemLib Unit :=
  ⟨fun _ => some (), fun _ _ => "X"⟩

/-- A model library that rejects every input. -/
def rejLib : ChemLib Unit :=
  ⟨fun _ => none, fun _ _ => ""⟩

/-- A model library that accepts every input but serializes every handle to
the empty string; the external interface of the spec (section 6) places no
non-emptiness constraint on `serialize`, so this is a legitimate
instantiation of the black box. -/
def emptySerLib : ChemLib Unit :=
  ⟨fun _ => some (), fun _ _ => ""⟩

/-- Claim C1: whenever the external parser returns the failure sentinel,
`canonical_smiles` returns exactly the empty string.  The embedded function
is total and writes nothing, so no exception and no diagnostic message can
occur; the empty string is the sole error signal. -/
theorem c1_parse_failure_empty {Mol : Type} (lib : ChemLib Mol) (s : String)
    (h : lib.MolFromSmiles s = none) : canonical_smiles lib s = "" := by
  unfold canonical_smiles
  rw [h]

/-- Witness for C1, at the spec's concrete rejected input. -/
theorem c1_witness :
    rejLib.MolFromSmiles ("notasmiles(((") = none ∧
      canonical_smiles rejLib ("notasmiles(((") = "" :=
  ⟨rfl, c1_parse_failure_empty rejLib ("notasmiles(((") rfl⟩

/-- Claim C2: whenever the external parser succeeds with some molecule
handle, `canonical_smiles` returns exactly the external serialization of
that handle with the canonical flag set to true. -/
theorem c2_parse_success_serializes {Mol : Type} (lib : ChemLib Mol) (s : String)
    (m : Mol) (h : lib.MolFromSmiles s = some m) :
    canonical_smiles lib s = lib.MolToSmiles m true := by
  unfold canonical_smiles
  rw [h]

/-- Witness for C2 at a concrete accepted input. -/
theorem c2_witness :
    trivLib.MolFromSmiles ("CCO") = some () ∧
      canonical_smiles trivLib ("CCO") = trivLib.MolToSmiles () true :=
  ⟨rfl, c2_parse_success_serializes trivLib ("CCO") () rfl⟩

/-- Counterexample to C3 as stated: an external library consistent with the
spec's black-box interface that accepts the input `"CCO"` yet makes
`canonical_smiles` return the empty string, because its serializer returns
the empty string on the parsed handle.  The wrapper itself cannot guarantee
non-empty output for accepted inputs. -/
theorem c3_counterexample :
    emptySerLib.MolFromSmiles ("CCO") = some () ∧
      canonical_smiles emptySerLib ("CCO") = "" :=
  ⟨rfl, rfl⟩

/-- Claim C3 (amended): for every input accepted by the external parser, the
output of `canonical_smiles` is non-empty provided the external serializer
returns a non-empty string on the parsed handle. -/
theorem c3_nonempty_of_serializer_nonempty {Mol : Type} (lib : ChemLib Mol)
    (s : String) (m : Mol) (h : lib.MolFromSmiles s = some m)
    (hne : lib.MolToSmiles m true ≠ "") :
    canonical_smiles lib s ≠ "" := by
  unfold canonical_smiles
  rw [h]
  exact hne

/-- Witness for the amended C3. -/
theorem c3_witness :
    trivLib.MolFromSmiles ("CCO") = some () ∧
      trivLib.MolToSmiles () true ≠ "" ∧
      canonical_smiles trivLib ("CCO") ≠ "" :=
  ⟨rfl, by decide, c3_nonempty_of_serializer_nonempty trivLib ("CCO") () rfl (by decide)⟩

/-- Claim C4: invoked with zero positional arguments (i.e. `sys.argv` has
fewer than two elements), the program prints an empty line to stdout and
exits with code 0. -/
theorem c4_no_args_empty_line {Mol : Type} (lib : ChemLib Mol)
    (sys_argv : List String) (h : sys_argv.length < 2) :
    main_run lib sys_argv = ⟨"\n", 0⟩ := by
  unfold main_run
  rw [if_pos h]

/-- Witness for C4: the program invoked under its own name with no further
arguments. -/
theorem c4_witness :
    (["rdkit_canonical.py"] : List String).length < 2 ∧
      main_run rejLib (["rdkit_canonical.py"]) = ⟨"\n", 0⟩ :=
  ⟨by decide, c4_no_args_empty_line rejLib (["rdkit_canonical.py"]) (by decide)⟩

/-- Claim C5: invoked with at least one positional argument, the program
takes the first positional argument as input, ignores any further arguments,
prints `canonical_smiles` of it (possibly empty) followed by the newline
`print` appends, and exits with code 0. -/
theorem c5_first_arg_used {Mol : Type} (lib : ChemLib Mol)
    (prog input : String) (rest : List String) :
    main_run lib (prog :: input :: rest) =
      ⟨canonical_smiles lib input ++ "\n", 0⟩ := by
  unfold main_run
  rw [if_neg (by simp)]
  rfl

/-- Claim C6: the program's exit code is 0 for every possible argument
vector and every behavior of the external library's two routines; in
particular malformed input still exits 0 (with empty output, by C1). -/
theorem c6_exit_code_always_zero {Mol : Type} (lib : ChemLib Mol)
    (sys_argv : List String) : (main_run lib sys_argv).exit_code = 0 := by
  unfold main_run
  split <;> rfl

/-- Claim C7: idempotence.  If the external library's canonicalization is
itself idempotent — re-parsing any serialized handle succeeds and
re-serializing reproduces the same string — then for every input the parser
accepts, the output of `canonical_smiles` is a fixed point of
`canonical_smiles`. -/
theorem c7_idempotent {Mol : Type} (lib : ChemLib Mol) (s : String) (m : Mol)
    (hlib : ∀ x : Mol, ∃ y : Mol,
      lib.MolFromSmiles (lib.MolToSmiles x true) = some y ∧
        lib.MolToSmiles y true = lib.MolToSmiles x true)
    (h : lib.MolFromSmiles s = some m) :
    canonical_smiles lib (canonical_smiles lib s) = canonical_smiles lib s := by
  obtain ⟨y, h1, h2⟩ := hlib m
  simp only [canonical_smiles, h, h1, h2]

/-- Witness for C7, with a concrete idempotent library model. -/
theorem c7_witness :
    (∀ x : Unit, ∃ y : Unit,
      trivLib.MolFromSmiles (trivLib.MolToSmiles x true) = some y ∧
        trivLib.MolToSmiles y true = trivLib.MolToSmiles x true) ∧
      trivLib.MolFromSmiles ("CCO") = some () ∧
      canonical_smiles trivLib (canonical_smiles trivLib ("CCO")) =
        canonical_smiles trivLib ("CCO") :=
  ⟨fun _ => ⟨(), rfl, rfl⟩, rfl,
    c7_idempotent trivLib ("CCO") () (fun _ => ⟨(), rfl, rfl⟩) rfl⟩

/-- Counterexample to C8 as stated: with an external library (consistent
with the spec's black-box interface) that parses the empty string to a valid
handle serializing to `"X"`, invocation with no arguments prints an empty
line while invocation with a single empty-string argument prints `"X"`, so
the observable outputs differ. -/
theorem c8_counterexample :
    main_run trivLib (["prog"]) ≠ main_run trivLib (["prog", ""]) := by
  decide

/-- Claim C8 (amended): invocation with no arguments produces the same
observable output (empty line on stdout, exit code 0) as invocation with a
single empty-string argument, provided `canonical_smiles` of the empty
string is the empty string — which holds whenever the external parser
rejects the empty string, and also when it parses it to a handle that
serializes to the empty string. -/
theorem c8_no_args_eq_empty_arg {Mol : Type} (lib : ChemLib Mol) (prog : String)
    (h : canonical_smiles lib ("") = "") :
    main_run lib ([prog]) = main_run lib ([prog, ""]) := by
  unfold main_run
  simp [h]

/-- Witness for the amended C8, with a library rejecting the empty string. -/
theorem c8_witness :
    canonical_smiles rejLib ("") = "" ∧
      main_run rejLib (["prog"]) = main_run rejLib (["prog", ""]) :=
  ⟨rfl, c8_no_args_eq_empty_arg rejLib ("prog") rfl⟩

/-- Claim C9: determinism.  Two invocations of `canonical_smiles` on the
same input — modelled as runs against two library oracles `lib1`, `lib2` —
produce the same output provided the external routines are deterministic,
i.e. the two oracles agree on the parse of the input and on canonical
serialization of every handle. -/
theorem c9_deterministic {Mol : Type} (lib1 lib2 : ChemLib Mol) (s : String)
    (hp : lib1.MolFromSmiles s = lib2.MolFromSmiles s)
    (hs : ∀ m : Mol, lib1.MolToSmiles m true = lib2.MolToSmiles m true) :
    canonical_smiles lib1 s = canonical_smiles lib2 s := by
  unfold canonical_smiles
  rw [hp]
  cases h2 : lib2.MolFromSmiles s with
  | none => rfl
  | some m => exact hs m

/-- Witness for C9 at a concrete input and oracle pair. -/
theorem c9_witness :
    trivLib.MolFromSmiles ("CCO") = trivLib.MolFromSmiles ("CCO") ∧
      (∀ m : Unit, trivLib.MolToSmiles m true = trivLib.MolToSmiles m true) ∧
      canonical_smiles trivLib ("CCO") = canonical_smiles trivLib ("CCO") :=
  ⟨rfl, fun _ => rfl, c9_deterministic trivLib trivLib ("CCO") rfl (fun _ => rfl)⟩
